import Mathlib

/-!
A verification development for the GardenPlanner task/crop scheduling data
layer.  The TypeScript services (`database.ts`, `cropDatabase.ts`,
`settings.ts`, `photoManager.ts`) are shallowly embedded: SQLite tables
become lists of row records, the lazily created connection becomes explicit
state passing, random UUID generation becomes a fresh-id counter (ids are
natural numbers), and the JavaScript `Date` object is modelled by proleptic
Gregorian civil dates together with a days-since-epoch encoding.  All
JavaScript date behaviour is modelled in the UTC time zone: the app stores
plain calendar dates, so local-time offsets are out of scope.  String
operations are implemented structurally over character lists so that every
definition evaluates inside the kernel.
-/

/-! ## Civil calendar and the JavaScript `Date` model

A JS `Date` holds a timestamp; `getDate` / `getFullYear` / `setDate` /
`setFullYear` convert between the timestamp and civil year/month/day
fields, normalising out-of-range fields through the timestamp (e.g.
Feb 29 of a non-leap year becomes Mar 1).  We model the civil side with
`CivilDate` and the timestamp side with a day number (days since
1970-01-01), using the standard era-based conversion algorithms, split
into named stages so each stage can be verified separately. -/

structure CivilDate where
  year : Int
  month : Int
  day : Int
deriving Repr, DecidableEq

/-- Gregorian leap-year test. -/
def isLeapYear (y : Int) : Bool :=
  (y % 4 == 0 && y % 100 != 0) || y % 400 == 0

/-- Number of days in a month of a given year. -/
def daysInMonth (y m : Int) : Int :=
  if m = 2 then (if isLeapYear y then 29 else 28)
  else if m = 4 ∨ m = 6 ∨ m = 9 ∨ m = 11 then 30 else 31

/-- `g` denotes an actual calendar date. -/
def CivilDate.Valid (g : CivilDate) : Prop :=
  1 ≤ g.month ∧ g.month ≤ 12 ∧ 1 ≤ g.day ∧ g.day ≤ daysInMonth g.year g.month

instance (g : CivilDate) : Decidable g.Valid := by
  unfold CivilDate.Valid; infer_instance

/-- Day of the March-based year: Mar 1 is day 0, Feb 28/29 end the year. -/
def doyOf (m d : Int) : Int := (153 * ((m + 9) % 12) + 2) / 5 + d - 1

/-- Day of era from year of era and day of year (era = 400-year cycle). -/
def doeOf (yoe doy : Int) : Int := yoe * 365 + yoe / 4 - yoe / 100 + doy

/-- Year of era recovered from day of era. -/
def yoeOfDoe (doe : Int) : Int :=
  (doe - doe / 1460 + doe / 36524 - doe / 146096) / 365

/-- Shifted month index (Mar = 0 … Feb = 11) recovered from day of year. -/
def mpOfDoy (doy : Int) : Int := (5 * doy + 2) / 153

/-- Civil month from the shifted month index. -/
def monthOfMp (mp : Int) : Int := if mp < 10 then mp + 3 else mp - 9

/-- Day of month recovered from day of year. -/
def dayOfDoy (doy : Int) : Int := doy - (153 * mpOfDoy doy + 2) / 5 + 1

/-- The March-based year holding civil month `m` of year `y`. -/
def yearShifted (y m : Int) : Int := if m ≤ 2 then y - 1 else y

/-- Era (400-year cycle index) of a civil year/month. -/
def eraOf (y m : Int) : Int := yearShifted y m / 400

/-- Year of era of a civil year/month. -/
def yoeOf (y m : Int) : Int := yearShifted y m - eraOf y m * 400

/-- Days since 1970-01-01 of civil `(y, m, d)`.  `d` may lie outside
`[1, daysInMonth y m]`: the result is then the corresponding offset from
the first of the month, exactly how the JS `Date` setters normalise
out-of-range day values. -/
def daysFromCivil (y m d : Int) : Int :=
  eraOf y m * 146097 + doeOf (yoeOf y m) (doyOf m d) - 719468

/-- Civil date from era and day of era. -/
def civilOfEraDoe (era doe : Int) : CivilDate :=
  let yoe := yoeOfDoe doe
  let doy := doe - doeOf yoe 0
  let m := monthOfMp (mpOfDoy doy)
  ⟨if m ≤ 2 then yoe + era * 400 + 1 else yoe + era * 400, m, dayOfDoy doy⟩

/-- Civil date of a day number (inverse of `daysFromCivil` on valid dates). -/
def civilFromDays (z : Int) : CivilDate :=
  civilOfEraDoe ((z + 719468) / 146097)
    (z + 719468 - ((z + 719468) / 146097) * 146097)

/-! ## Kernel-computable string utilities

SQLite compares TEXT with the BINARY collation (byte order, which on
UTF-8 agrees with code-point order), and the embedded CSV / date strings
are plain ASCII.  These helpers work on `String.data` so that concrete
instances reduce inside the kernel. -/

/-- Lexicographic order on character lists (SQLite BINARY collation). -/
def charListLe : List Char → List Char → Bool
  | [], _ => true
  | _ :: _, [] => false
  | a :: as, b :: bs => if a < b then true else if b < a then false else charListLe as bs

/-- Lexicographic byte order on strings. -/
def strLe (a b : String) : Bool := charListLe a.data b.data

/-- Split a character list at every occurrence of `sep`. -/
def splitOnChar (sep : Char) : List Char → List (List Char)
  | [] => [[]]
  | c :: cs =>
    let r := splitOnChar sep cs
    if c = sep then [] :: r
    else
      match r with
      | [] => [[c]]
      | h :: t => (c :: h) :: t

/-- Split a string at every occurrence of the character `sep`. -/
def splitStr (sep : Char) (s : String) : List String :=
  (splitOnChar sep s.data).map String.mk

/-- Accumulating decimal reading of a digit list; `none` on a non-digit. -/
def digitsToNatAux (acc : Nat) : List Char → Option Nat
  | [] => some acc
  | c :: cs =>
    if c.isDigit then digitsToNatAux (acc * 10 + (c.toNat - 48)) cs else none

/-- Decimal value of a nonempty all-digit string, `none` otherwise. -/
def strToNat (s : String) : Option Nat :=
  match s.data with
  | [] => none
  | c :: cs => digitsToNatAux 0 (c :: cs)

/-- JS `parseInt` restricted to the shapes occurring in the embedded data:
leading spaces are skipped and the longest digit prefix is read (so
`parseInt("55 ") = 55`).  A string with no digit prefix gives `NaN` in JS;
that case never arises for the seed catalog and is mapped to 0. -/
def jsParseInt (s : String) : Int :=
  let t := (s.data.dropWhile (fun c => c = ' ')).takeWhile Char.isDigit
  match digitsToNatAux 0 t with
  | some n => (n : Int)
  | none => 0

/-- Character of a decimal digit. -/
def digitChar (n : Nat) : Char := Char.ofNat (48 + n % 10)

/-- Four-digit zero-padded decimal rendering. -/
def pad4 (n : Nat) : List Char :=
  [digitChar (n / 1000), digitChar (n / 100), digitChar (n / 10), digitChar n]

/-- Two-digit zero-padded decimal rendering. -/
def pad2 (n : Nat) : List Char := [digitChar (n / 10), digitChar n]

/-- The date part of JS `toISOString` (`YYYY-MM-DD`), i.e. what splitting
the ISO string at the letter T yields; modelled for years 0–9999, the
range in which JS uses the four-digit form. -/
def formatISO (g : CivilDate) : String :=
  String.mk (pad4 g.year.toNat ++ '-' :: (pad2 g.month.toNat ++ '-' :: pad2 g.day.toNat))

/-- Stable insertion of `x` into a sorted list. -/
def insertSorted (le : α → α → Bool) (x : α) : List α → List α
  | [] => [x]
  | y :: ys => if le x y then x :: y :: ys else y :: insertSorted le x ys

/-- Stable insertion sort, the model of SQL ORDER BY. -/
def insertionSort (le : α → α → Bool) : List α → List α
  | [] => []
  | x :: xs => insertSorted le x (insertionSort le xs)

/-- Adjacent-pair sortedness check (used to state ORDER BY postconditions
in a kernel-computable way). -/
def isSortedBy (le : α → α → Bool) : List α → Bool
  | [] => true
  | [_] => true
  | a :: b :: rest => le a b && isSortedBy le (b :: rest)

/-! ## JS date-string parsing

`copySelectedTasks` feeds the stored date text to `new Date(string)`.
The app stores dates either as `YYYY-MM-DD` (ISO, written by the copy
itself) or `MM/DD/YYYY`; both parse to the calendar date they denote and
an out-of-range component yields an invalid date (`NaN` timestamp),
modelled as `none`.  Engine-specific leniency for other shapes is out of
scope: any other string is modelled as unparseable, which on the `isNaN`
branch of the source leaves the stored text unchanged. -/

/-- Parse `YYYY-MM-DD`. -/
def parseIsoDate (s : String) : Option CivilDate :=
  match splitStr '-' s with
  | [ys, ms, ds] =>
    if ys.data.length = 4 ∧ ms.data.length = 2 ∧ ds.data.length = 2 then
      match strToNat ys, strToNat ms, strToNat ds with
      | some y, some m, some d =>
        let g : CivilDate := ⟨(y : Int), (m : Int), (d : Int)⟩
        if g.Valid then some g else none
      | _, _, _ => none
    else none
  | _ => none

/-- Parse `MM/DD/YYYY` (month and day may be one or two digits). -/
def parseSlashDate (s : String) : Option CivilDate :=
  match splitStr '/' s with
  | [ms, ds, ys] =>
    if (ms.data.length = 1 ∨ ms.data.length = 2) ∧
       (ds.data.length = 1 ∨ ds.data.length = 2) ∧ ys.data.length = 4 then
      match strToNat ys, strToNat ms, strToNat ds with
      | some y, some m, some d =>
        let g : CivilDate := ⟨(y : Int), (m : Int), (d : Int)⟩
        if g.Valid then some g else none
      | _, _, _ => none
    else none
  | _ => none

/-- The `new Date(string)` model. -/
def parseJsDate (s : String) : Option CivilDate :=
  match parseIsoDate s with
  | some g => some g
  | none => parseSlashDate s

/-- Date adjustment of `copySelectedTasks` (database.ts 513–528): parse the
stored date, `setFullYear(getFullYear() + yearDiff)` through the timestamp,
render with `toISOString`.  If the date does not parse (`isNaN` branch) the
stored text is kept; the `catch` fallback of the source is unreachable
because `new Date(string)` does not throw. -/
def adjustTaskDate (date : String) (yearDiff : Int) : String :=
  match parseJsDate date with
  | some g => formatISO (civilFromDays (daysFromCivil (g.year + yearDiff) g.month g.day))
  | none => date

/-! ## Crop repository (cropDatabase.ts) -/

structure Crop where
  id : Nat
  name : String
  weeksBeforeFrost : Int
  daysToMaturity : Int
deriving Repr, DecidableEq

/-- The embedded seed catalog (cropDatabase.ts 21–56), verbatim; note the
trailing space in the Cilantro row. -/
def DEFAULT_CROPS_CSV : String :=
  "name,weeksBeforeFrost,daysToMaturity\nAgeratum,7,80\nAmaranth,4,65\nBasil,0,55\nBeans,0,55\nBeets,8,55\nBok Choi,6,55\nBroccoli,8,60\nBrussels Sprouts,8,90\nCabbage,8,70\nCarrots,8,75\nCauliflower,8,60\nCelosia,6,90\nCilantro,4,55 \nCollards,8,55\nCorn,0,70\nCucumbers,4,55\nEggplant,6,65\nGround Cherry,6,75\nKale,8,55\nLavender,8,100\nLettuce,8,45\nMelons,4,75\nOnions,6,100\nParsley,8,75\nPeas,4,60\nPeppers,8,65\nPotatoes,4,90\nPumpkins,3,90\nRadishes,8,30\nSpinach,8,40\nSweet Potatoes,0,100\nSwiss Chard,8,55\nTomatoes,6,70\nWinter Squash,3,90\nZucchini,3,50"

/-- One record of the parsed CSV, fields still textual (Papa.parse output). -/
structure CsvCropRec where
  name : String
  weeksBeforeFrost : String
  daysToMaturity : String
deriving Repr, DecidableEq

/-- Papa.parse with `header: true, skipEmptyLines: true`: drop the header
line, skip empty lines, map the remaining comma-separated rows. -/
def parseCropsCsv (csv : String) : List CsvCropRec :=
  match splitStr '\n' csv with
  | [] => []
  | _header :: lines =>
    (lines.filter (fun l => l ≠ "")).filterMap (fun l =>
      match splitStr ',' l with
      | [n, w, d] => some ⟨n, w, d⟩
      | _ => none)

structure CropStore where
  rows : List Crop
  nextId : Nat
deriving Repr, DecidableEq

/-- `initCropDatabase`: when the crop table is empty, parse the embedded
CSV and insert one row per record, each with a fresh id. -/
def initCropDatabase (st : CropStore) : CropStore :=
  if st.rows.isEmpty then
    { rows := (List.enumFrom st.nextId (parseCropsCsv DEFAULT_CROPS_CSV)).map
        (fun p => ⟨p.1, p.2.name, jsParseInt p.2.weeksBeforeFrost, jsParseInt p.2.daysToMaturity⟩),
      nextId := st.nextId + (parseCropsCsv DEFAULT_CROPS_CSV).length }
  else st

/-- `getCrops`: SELECT * FROM crops ORDER BY name. -/
def getCrops (st : CropStore) : List Crop :=
  insertionSort (fun a b => strLe a.name b.name) st.rows

/-- `getCropById`: first row with the id, absence is `none` (never throws). -/
def getCropById (st : CropStore) (id : Nat) : Option Crop :=
  st.rows.find? (fun c => c.id == id)

/-- `calculatePlantingDate` (cropDatabase.ts 146–161): copy the frost date
and `setDate(getDate() - weeksBeforeFrost * 7)`, which JS evaluates through
the timestamp as shown. -/
def calculatePlantingDate (crop : Crop) (frostDate : CivilDate) : CivilDate :=
  civilFromDays
    (daysFromCivil frostDate.year frostDate.month (frostDate.day - crop.weeksBeforeFrost * 7))

/-! ## Task repository (database.ts) -/

/-- A row of the `tasks` table after all migrations (`TaskRow` of the
source).  `photos` is the nullable JSON column, modelled at the level of
the decoded string list (JSON round-trips string lists exactly);
`completed` is the raw stored number; `isTemplate`, `archived` are the
nullable migrated integer columns. -/
structure TaskRow where
  id : Nat
  title : String
  type : String
  cropId : Option String
  date : String
  notes : Option String
  photos : Option (List String)
  completed : Nat
  year : Int
  isTemplate : Option Nat
  category : Option String
  archived : Option Nat
deriving Repr, DecidableEq

/-- The domain `Task` record returned by the read operations (named
`TaskRec` here because `Task` is taken by the Lean core library). -/
structure TaskRec where
  id : Nat
  title : String
  type : String
  cropId : Option String
  date : String
  notes : Option String
  photos : List String
  completed : Bool
  year : Int
  isTemplate : Bool
  category : Option String
  archived : Bool
deriving Repr, DecidableEq

/-- JS `x || null` on an optional string: the empty string is falsy. -/
def jsOrNull (s : Option String) : Option String :=
  match s with
  | some v => if v = "" then none else some v
  | none => none

/-- JS `x || dflt` on a string. -/
def jsOrStr (s dflt : String) : String := if s = "" then dflt else s

/-- The row-to-record mapping used by every read (database.ts 243–256 and
copies): `type || task`, `cropId || undefined`, JSON-decode photos with
`[]` for NULL, `Boolean` on the numeric flags with `|| 0` for NULL. -/
def rowToTask (r : TaskRow) : TaskRec :=
  { id := r.id
    title := r.title
    type := jsOrStr r.type "task"
    cropId := jsOrNull r.cropId
    date := r.date
    notes := jsOrNull r.notes
    photos := r.photos.getD []
    completed := r.completed != 0
    year := r.year
    isTemplate := r.isTemplate.getD 0 != 0
    category := r.category
    archived := r.archived.getD 0 != 0 }

structure TaskStore where
  rows : List TaskRow
  nextId : Nat
deriving Repr, DecidableEq

/-- The filter `buildTaskQuery` adds to every read:
`(archived = 0 OR archived IS NULL)`. -/
def archivedVisible (r : TaskRow) : Bool :=
  match r.archived with
  | some v => v == 0
  | none => true

/-- ORDER BY date on the raw text column. -/
def sortByDateStr (l : List TaskRow) : List TaskRow :=
  insertionSort (fun a b => strLe a.date b.date) l

/-- `getTasks` (getByYear): year filter plus archived visibility, ordered
by the raw date string. -/
def getTasks (st : TaskStore) (year : Int) : List TaskRec :=
  (sortByDateStr (st.rows.filter
    (fun r => archivedVisible r && r.year == year))).map rowToTask

/-- `getTaskById`: a missing id is a hard failure. -/
def getTaskById (st : TaskStore) (id : Nat) : Except String TaskRec :=
  match st.rows.find? (fun r => r.id == id) with
  | some r => .ok (rowToTask r)
  | none => .error "Task not found"

/-- `UpdateTaskInput`: every field optional; `undefined` fields are dropped
before the UPDATE is built. -/
structure UpdateTaskInput where
  title : Option String := none
  type : Option String := none
  cropId : Option String := none
  date : Option String := none
  notes : Option String := none
  photos : Option (List String) := none
  completed : Option Bool := none
  year : Option Int := none
  isTemplate : Option Bool := none
  category : Option String := none
  archived : Option Bool := none

/-- The patch with every field `undefined`. -/
def emptyUpdateInput : UpdateTaskInput := {}

/-- The SET clause built by `updateTask` (database.ts 328–341): one
assignment per defined field, booleans normalised to 0/1, photos JSON
encoded.  Each assignment is modelled as the column name paired with its
effect on a row. -/
def taskAssignments (u : UpdateTaskInput) : List (String × (TaskRow → TaskRow)) :=
  (match u.title with
   | some v => [("title", fun r => { r with title := v })]
   | none => []) ++
  (match u.type with
   | some v => [("type", fun r => { r with type := v })]
   | none => []) ++
  (match u.cropId with
   | some v => [("cropId", fun r => { r with cropId := some v })]
   | none => []) ++
  (match u.date with
   | some v => [("date", fun r => { r with date := v })]
   | none => []) ++
  (match u.notes with
   | some v => [("notes", fun r => { r with notes := some v })]
   | none => []) ++
  (match u.photos with
   | some v => [("photos", fun r => { r with photos := some v })]
   | none => []) ++
  (match u.completed with
   | some v => [("completed", fun r => { r with completed := if v then 1 else 0 })]
   | none => []) ++
  (match u.year with
   | some v => [("year", fun r => { r with year := v })]
   | none => []) ++
  (match u.isTemplate with
   | some v => [("isTemplate", fun r => { r with isTemplate := some (if v then 1 else 0) })]
   | none => []) ++
  (match u.category with
   | some v => [("category", fun r => { r with category := some v })]
   | none => []) ++
  (match u.archived with
   | some v => [("archived", fun r => { r with archived := some (if v then 1 else 0) })]
   | none => [])

/-- Execute `UPDATE tasks SET … WHERE id = ?`.  An empty SET clause is a
SQL syntax error (the statement reads `UPDATE tasks SET WHERE id = ?;`),
which the store rejects before touching any row. -/
def runUpdateTasks (st : TaskStore) (id : Nat)
    (assigns : List (String × (TaskRow → TaskRow))) : Except String TaskStore :=
  if assigns.isEmpty then .error "SQL syntax error near WHERE"
  else
    .ok { st with
          rows := st.rows.map fun r =>
            if r.id == id then assigns.foldl (fun acc a => a.2 acc) r else r }

/-- `updateTask`: build and run the UPDATE, then reload the row
(read-after-write). -/
def updateTask (st : TaskStore) (id : Nat) (u : UpdateTaskInput) :
    Except String (TaskRec × TaskStore) :=
  match runUpdateTasks st id (taskAssignments u) with
  | .error e => .error e
  | .ok st2 =>
    match getTaskById st2 id with
    | .ok t => .ok (t, st2)
    | .error e => .error e

/-- `cleanupTaskPhotos` (photoManager.ts 90–98): start a `deletePhoto` for
every filename (`Promise.all` starts all of them); if any fails the whole
call rejects with an error, which the function logs and re-throws.
`fsFail` is the file-system oracle saying which release attempts fail. -/
def cleanupTaskPhotos (fsFail : String → Bool) (photos : List String) :
    Except String Unit :=
  if photos.any fsFail then .error "photo delete failed" else .ok ()

/-- `deleteTask` (database.ts 395–414): load the task, release its photos
when it has any, then DELETE the row.  The returned list is the sequence of
photo filenames whose release was attempted; the DELETE statement runs only
after a successful cleanup because the thrown cleanup error propagates
through the catch block (which logs and re-throws). -/
def deleteTask (fsFail : String → Bool) (st : TaskStore) (id : Nat) :
    List String × Except String TaskStore :=
  match st.rows.find? (fun r => r.id == id) with
  | none => ([], .error "Task not found")
  | some r =>
    let photos := (rowToTask r).photos
    if photos.isEmpty then
      ([], .ok { st with rows := st.rows.filter (fun q => q.id != id) })
    else
      (photos,
        match cleanupTaskPhotos fsFail photos with
        | .error e => .error e
        | .ok _ => .ok { st with rows := st.rows.filter (fun q => q.id != id) })

/-- Options of `copySelectedTasks`; an empty `categories` list models both
`undefined` and `[]`, which the source treats identically. -/
structure CopyYearOptions where
  fromYear : Int
  toYear : Int
  categories : List String := []
  includeTemplates : Option Bool := none
  includeNotes : Option Bool := none
  resetCompletion : Option Bool := none

/-- The WHERE clause of the copy SELECT (database.ts 484–501): year match,
optional `category IN (…)` (NULL category never matches IN), `isTemplate =
0` when templates are excluded (NULL does not satisfy it), `type = "task"`
when notes are excluded.  No archived filter is applied. -/
def matchesCopyFilter (o : CopyYearOptions) (r : TaskRow) : Bool :=
  r.year == o.fromYear &&
  (o.categories.isEmpty ||
    (match r.category with
     | some c => o.categories.contains c
     | none => false)) &&
  (o.includeTemplates != some false ||
    (match r.isTemplate with
     | some v => v == 0
     | none => false)) &&
  (o.includeNotes != some false || r.type == "task")

/-- The INSERT of the copy loop (database.ts 530–547) for one source row:
fresh id, date adjusted by the year difference, photos NULL, completion
kept only when `resetCompletion === false`, destination year, archived 0. -/
def copyTaskRow (o : CopyYearOptions) (newId : Nat) (t : TaskRow) : TaskRow :=
  { id := newId
    title := t.title
    type := t.type
    cropId := jsOrNull t.cropId
    date := adjustTaskDate t.date (o.toYear - o.fromYear)
    notes := jsOrNull t.notes
    photos := none
    completed := if o.resetCompletion = some false then t.completed else 0
    year := o.toYear
    isTemplate := some (t.isTemplate.getD 0)
    category := jsOrNull t.category
    archived := some 0 }

/-- The rows of the copy SELECT, ordered by date. -/
def copySourceRows (st : TaskStore) (o : CopyYearOptions) : List TaskRow :=
  sortByDateStr (st.rows.filter (matchesCopyFilter o))

/-- The rows the copy loop inserts, each with a fresh id from the supply. -/
def copiedRows (st : TaskStore) (o : CopyYearOptions) : List TaskRow :=
  (List.enumFrom st.nextId (copySourceRows st o)).map (fun p => copyTaskRow o p.1 p.2)

/-- `copySelectedTasks`: select, transform, insert; returns the new store
and the copied count. -/
def copySelectedTasks (st : TaskStore) (o : CopyYearOptions) : TaskStore × Nat :=
  ({ rows := st.rows ++ copiedRows st o,
     nextId := st.nextId + (copiedRows st o).length },
   (copiedRows st o).length)

/-! ## Settings store (settings.ts) -/

structure GardenSettings where
  frostStartDate : String
  frostEndDate : String
  currentYear : Int
  notificationsEnabled : Bool
  saveToPhotoLibrary : Bool
deriving Repr, DecidableEq

/-- A row of the `settings` table; `id` is the AUTOINCREMENT key. -/
structure SettingsRow where
  id : Nat
  frost_start_date : String
  frost_end_date : String
  current_year : Int
  notifications_enabled : Nat
  save_to_photo_library : Nat
deriving Repr, DecidableEq

structure SettingsStore where
  rows : List SettingsRow
  nextSeq : Nat
deriving Repr, DecidableEq

/-- The INSERT row of `saveSettings`: booleans stored as 1/0. -/
def settingsToRow (idv : Nat) (s : GardenSettings) : SettingsRow :=
  ⟨idv, s.frostStartDate, s.frostEndDate, s.currentYear,
   if s.notificationsEnabled then 1 else 0,
   if s.saveToPhotoLibrary then 1 else 0⟩

/-- The read mapping of `getSettings`: `Boolean` of the stored numbers. -/
def rowToSettings (r : SettingsRow) : GardenSettings :=
  ⟨r.frost_start_date, r.frost_end_date, r.current_year,
   r.notifications_enabled != 0, r.save_to_photo_library != 0⟩

/-- `saveSettings` always appends a new row (never updates in place). -/
def saveSettings (st : SettingsStore) (s : GardenSettings) : SettingsStore :=
  { rows := st.rows ++ [settingsToRow st.nextSeq s], nextSeq := st.nextSeq + 1 }

/-- Pick the later (greater-id) of an accumulator row and a new row. -/
def laterSettingsRow (acc : Option SettingsRow) (r : SettingsRow) : Option SettingsRow :=
  match acc with
  | none => some r
  | some a => if a.id < r.id then some r else some a

/-- `SELECT * FROM settings ORDER BY id DESC LIMIT 1`: the row with the
greatest id. -/
def latestSettingsRow (rows : List SettingsRow) : Option SettingsRow :=
  rows.foldl laterSettingsRow none

/-- The hard-coded defaults written on first read; `nowYear` stands for
`new Date().getFullYear()`. -/
def defaultSettings (nowYear : Int) : GardenSettings :=
  ⟨"10-03", "05-11", nowYear, true, false⟩

/-- `getSettings`: most recent row, or persist-and-return the defaults when
the table is empty. -/
def getSettings (nowYear : Int) (st : SettingsStore) :
    GardenSettings × SettingsStore :=
  match latestSettingsRow st.rows with
  | some r => (rowToSettings r, st)
  | none => (defaultSettings nowYear, saveSettings st (defaultSettings nowYear))

/-- The AUTOINCREMENT invariant: every stored id is below the next one. -/
def WFSettings (st : SettingsStore) : Prop :=
  ∀ r ∈ st.rows, r.id < st.nextSeq

instance (st : SettingsStore) : Decidable (WFSettings st) := by
  unfold WFSettings; infer_instance

/-! ## Concrete fixtures used by counterexamples and witnesses -/

/-- A task row helper with the given id, date, year and photos. -/
def mkTaskRow (id : Nat) (date : String) (year : Int) (completed : Nat)
    (photos : Option (List String)) : TaskRow :=
  { id := id, title := "Plant tomatoes", type := "task", cropId := none,
    date := date, notes := none, photos := photos, completed := completed,
    year := year, isTemplate := some 0, category := none, archived := some 0 }

/-- Store holding one leap-day task of 2024. -/
def febStore : TaskStore := { rows := [mkTaskRow 0 "2024-02-29" 2024 0 none], nextId := 1 }

/-- Store holding the end-to-end example task (`date="01/15/2024"`,
`year=2024`), completed and with a photo, as the scenario source row. -/
def exampleStore : TaskStore :=
  { rows := [mkTaskRow 0 "01/15/2024" 2024 1 (some ["a.jpg"])], nextId := 1 }

/-- Default copy options from 2024 to 2025. -/
def copy2425 : CopyYearOptions := { fromYear := 2024, toYear := 2025 }

/-- Store holding one archived 2024 task, for the archived-copy claim. -/
def archivedStore : TaskStore :=
  { rows := [{ mkTaskRow 0 "2024-05-01" 2024 0 none with archived := some 1 }], nextId := 1 }

/-- Store holding one task with one photo, for the deletion claims. -/
def photoTaskStore : TaskStore :=
  { rows := [mkTaskRow 0 "2024-05-01" 2024 0 (some ["p.jpg"])], nextId := 1 }

/-- File-system oracle on which every release attempt fails. -/
def fsAllFail : String → Bool := fun _ => true

/-- File-system oracle on which every release attempt succeeds. -/
def fsAllOk : String → Bool := fun _ => false

/-! ## Calendar correctness -/

theorem isLeapYear_iff (y : Int) :
    isLeapYear y = true ↔ ((y % 4 = 0 ∧ y % 100 ≠ 0) ∨ y % 400 = 0) := by
  unfold isLeapYear
  simp [Bool.or_eq_true, Bool.and_eq_true, beq_iff_eq, bne_iff_ne]

theorem doeOf_bounds (yoe doy : Int) (h1 : 0 ≤ yoe) (h2 : yoe ≤ 399)
    (h3 : 0 ≤ doy) (h4 : doy ≤ 365) :
    0 ≤ doeOf yoe doy ∧ doeOf yoe doy ≤ 146096 := by
  unfold doeOf; omega

set_option maxHeartbeats 4000000 in
/-- Year-of-era recovery: the hard core of the civil/day-number inversion,
settled by exhausting the 400 years of an era. -/
theorem yoeOfDoe_doeOf (yoe doy : Int) (h1 : 0 ≤ yoe) (h2 : yoe ≤ 399)
    (h3 : 0 ≤ doy) (h4 : doy ≤ 365)
    (h5 : doy = 365 → ((yoe + 1) % 4 = 0 ∧ (yoe + 1) % 100 ≠ 0) ∨ (yoe + 1) % 400 = 0) :
    yoeOfDoe (doeOf yoe doy) = yoe := by
  unfold yoeOfDoe doeOf
  interval_cases yoe <;> omega

theorem civilOfEraDoe_doeOf (era yoe doy : Int) (h1 : 0 ≤ yoe) (h2 : yoe ≤ 399)
    (h3 : 0 ≤ doy) (h4 : doy ≤ 365)
    (h5 : doy = 365 → ((yoe + 1) % 4 = 0 ∧ (yoe + 1) % 100 ≠ 0) ∨ (yoe + 1) % 400 = 0) :
    civilOfEraDoe era (doeOf yoe doy) =
      ⟨if monthOfMp (mpOfDoy doy) ≤ 2 then yoe + era * 400 + 1 else yoe + era * 400,
       monthOfMp (mpOfDoy doy), dayOfDoy doy⟩ := by
  have hd : doeOf yoe doy - doeOf yoe 0 = doy := by unfold doeOf; ring
  unfold civilOfEraDoe
  dsimp only
  rw [yoeOfDoe_doeOf yoe doy h1 h2 h3 h4 h5, hd]

theorem civilFromDays_daysFromCivil_aux (era yoe doy : Int) (h1 : 0 ≤ yoe) (h2 : yoe ≤ 399)
    (h3 : 0 ≤ doy) (h4 : doy ≤ 365)
    (h5 : doy = 365 → ((yoe + 1) % 4 = 0 ∧ (yoe + 1) % 100 ≠ 0) ∨ (yoe + 1) % 400 = 0) :
    civilFromDays (era * 146097 + doeOf yoe doy - 719468) =
      ⟨if monthOfMp (mpOfDoy doy) ≤ 2 then yoe + era * 400 + 1 else yoe + era * 400,
       monthOfMp (mpOfDoy doy), dayOfDoy doy⟩ := by
  unfold civilFromDays
  have e1 : era * 146097 + doeOf yoe doy - 719468 + 719468 = era * 146097 + doeOf yoe doy := by
    ring
  rw [e1]
  obtain ⟨hb1, hb2⟩ := doeOf_bounds yoe doy h1 h2 h3 h4
  have hq : (era * 146097 + doeOf yoe doy) / 146097 = era := by omega
  rw [hq]
  have hr : era * 146097 + doeOf yoe doy - era * 146097 = doeOf yoe doy := by ring
  rw [hr]
  exact civilOfEraDoe_doeOf era yoe doy h1 h2 h3 h4 h5

theorem doy_recover (y m d : Int) (h1 : 1 ≤ m) (h2 : m ≤ 12) (h3 : 1 ≤ d)
    (h4 : d ≤ daysInMonth y m) :
    0 ≤ doyOf m d ∧ doyOf m d ≤ 365 ∧
    monthOfMp (mpOfDoy (doyOf m d)) = m ∧ dayOfDoy (doyOf m d) = d ∧
    (doyOf m d = 365 → m = 2 ∧ d = 29 ∧ isLeapYear y = true) := by
  unfold daysInMonth at h4
  unfold doyOf mpOfDoy monthOfMp dayOfDoy mpOfDoy
  cases hb : isLeapYear y <;> rw [hb] at h4 <;> interval_cases m <;>
    simp_all <;> omega

set_option maxHeartbeats 1000000 in
/-- The conversions are mutually inverse on valid civil dates: the model of
a JS `Date` setter applied to in-range fields reads back those fields. -/
theorem civilFromDays_daysFromCivil (y m d : Int) (h1 : 1 ≤ m) (h2 : m ≤ 12)
    (h3 : 1 ≤ d) (h4 : d ≤ daysInMonth y m) :
    civilFromDays (daysFromCivil y m d) = ⟨y, m, d⟩ := by
  obtain ⟨g1, g2, g3, g4, g5⟩ := doy_recover y m d h1 h2 h3 h4
  have hy1 : 0 ≤ yoeOf y m := by unfold yoeOf eraOf yearShifted; split_ifs <;> omega
  have hy2 : yoeOf y m ≤ 399 := by unfold yoeOf eraOf yearShifted; split_ifs <;> omega
  have h5 : doyOf m d = 365 →
      ((yoeOf y m + 1) % 4 = 0 ∧ (yoeOf y m + 1) % 100 ≠ 0) ∨ (yoeOf y m + 1) % 400 = 0 := by
    intro hdoy
    obtain ⟨hm2, hd29, hleap⟩ := g5 hdoy
    rw [isLeapYear_iff] at hleap
    subst hm2
    unfold yoeOf eraOf yearShifted
    simp only [show (2 : Int) ≤ 2 from le_refl 2, if_pos]
    omega
  have haux := civilFromDays_daysFromCivil_aux (eraOf y m) (yoeOf y m) (doyOf m d)
    hy1 hy2 g1 g2 h5
  unfold daysFromCivil
  rw [haux, g3, g4]
  have hyear :
      (if m ≤ 2 then yoeOf y m + eraOf y m * 400 + 1 else yoeOf y m + eraOf y m * 400) = y := by
    unfold yoeOf eraOf yearShifted
    split_ifs <;> omega
  rw [hyear]

/-- Shifting the day argument shifts the day number: JS
`setDate(getDate() - k)` moves the timestamp back exactly `k` days. -/
theorem daysFromCivil_day_shift (y m d k : Int) :
    daysFromCivil y m (d - k) = daysFromCivil y m d - k := by
  unfold daysFromCivil doeOf doyOf
  ring

/-- Feb 29 of a non-leap year denotes the same day number as Mar 1: the JS
normalisation target of `setFullYear` on a leap-day date. -/
theorem daysFromCivil_feb29 (y : Int) (h : isLeapYear y = false) :
    daysFromCivil y 2 29 = daysFromCivil y 3 1 := by
  have h2 : ¬((y % 4 = 0 ∧ y % 100 ≠ 0) ∨ y % 400 = 0) := by
    intro hc
    rw [← isLeapYear_iff] at hc
    simp [h] at hc
  simp only [daysFromCivil, eraOf, yoeOf, yearShifted, doeOf, doyOf]
  norm_num
  omega

/-! ## List utility lemmas -/

theorem mem_insertSorted (le : α → α → Bool) (x a : α) (l : List α) :
    a ∈ insertSorted le x l ↔ a = x ∨ a ∈ l := by
  induction l with
  | nil => simp [insertSorted]
  | cons y ys ih =>
    simp only [insertSorted]
    by_cases h : le x y = true
    · rw [if_pos h]; simp [List.mem_cons]
    · rw [if_neg h]; simp only [List.mem_cons, ih]; tauto

theorem mem_insertionSort (le : α → α → Bool) (a : α) (l : List α) :
    a ∈ insertionSort le l ↔ a ∈ l := by
  induction l with
  | nil => simp [insertionSort]
  | cons x xs ih => simp [insertionSort, mem_insertSorted, ih]

theorem length_insertSorted (le : α → α → Bool) (x : α) (l : List α) :
    (insertSorted le x l).length = l.length + 1 := by
  induction l with
  | nil => rfl
  | cons y ys ih =>
    simp only [insertSorted]
    by_cases h : le x y = true
    · rw [if_pos h]; simp [List.length_cons]
    · rw [if_neg h]; simp [List.length_cons, ih]

theorem length_insertionSort (le : α → α → Bool) (l : List α) :
    (insertionSort le l).length = l.length := by
  induction l with
  | nil => rfl
  | cons x xs ih => simp [insertionSort, length_insertSorted, ih]

theorem length_enumFromN (n : Nat) (l : List α) :
    (List.enumFrom n l).length = l.length := by
  induction l generalizing n with
  | nil => rfl
  | cons x xs ih => simp [List.enumFrom, ih]

theorem snd_mem_enumFrom {p : Nat × α} :
    ∀ {n : Nat} {l : List α}, p ∈ List.enumFrom n l → p.2 ∈ l := by
  intro n l
  induction l generalizing n with
  | nil => intro h; simp [List.enumFrom] at h
  | cons x xs ih =>
    intro h
    simp only [List.enumFrom] at h
    rcases List.mem_cons.mp h with rfl | h2
    · simp
    · exact List.mem_cons.mpr (Or.inr (ih h2))

/-! ## Bridge lemmas about the embedded operations -/

theorem mem_copySourceRows_of {st : TaskStore} {o : CopyYearOptions} {r : TaskRow}
    (hr : r ∈ st.rows) (hm : matchesCopyFilter o r = true) :
    r ∈ copySourceRows st o := by
  unfold copySourceRows sortByDateStr
  exact (mem_insertionSort _ _ _).mpr (List.mem_filter.mpr ⟨hr, hm⟩)

theorem mem_copiedRows {st : TaskStore} {o : CopyYearOptions} {r : TaskRow}
    (h : r ∈ copiedRows st o) :
    ∃ i q, q ∈ st.rows ∧ matchesCopyFilter o q = true ∧ r = copyTaskRow o i q := by
  unfold copiedRows at h
  obtain ⟨p, hp, hr⟩ := List.mem_map.mp h
  have h2 := snd_mem_enumFrom hp
  unfold copySourceRows sortByDateStr at h2
  have h3 := (mem_insertionSort _ _ _).mp h2
  exact ⟨p.1, p.2, (List.mem_filter.mp h3).1, (List.mem_filter.mp h3).2, hr.symm⟩

theorem getTasks_archived_false {st : TaskStore} {y : Int} {t : TaskRec}
    (h : t ∈ getTasks st y) : t.archived = false := by
  unfold getTasks sortByDateStr at h
  obtain ⟨q, hq, rfl⟩ := List.mem_map.mp h
  have h2 := (mem_insertionSort _ _ _).mp hq
  have h3 := (List.mem_filter.mp h2).2
  simp only [Bool.and_eq_true] at h3
  have h4 : archivedVisible q = true := h3.1
  unfold archivedVisible at h4
  unfold rowToTask
  cases hq2 : q.archived with
  | none => simp [hq2]
  | some v =>
    rw [hq2] at h4
    simp only [beq_iff_eq] at h4
    simp [hq2, h4]

theorem rowToSettings_settingsToRow (i : Nat) (s : GardenSettings) :
    rowToSettings (settingsToRow i s) = s := by
  cases s with
  | mk a b c d e => cases d <;> cases e <;> rfl

theorem foldl_laterSettingsRow (nr : SettingsRow) :
    ∀ (rows : List SettingsRow) (acc : Option SettingsRow),
      (∀ r ∈ rows, r.id < nr.id) →
      (∀ a, acc = some a → a.id < nr.id) →
      List.foldl laterSettingsRow acc (rows ++ [nr]) = some nr := by
  intro rows
  induction rows with
  | nil =>
    intro acc _ hacc
    cases acc with
    | none => rfl
    | some a =>
      have := hacc a rfl
      simp only [List.nil_append, List.foldl_cons, List.foldl_nil, laterSettingsRow]
      rw [if_pos this]
  | cons r rows ih =>
    intro acc hrows hacc
    simp only [List.cons_append, List.foldl_cons]
    refine ih (laterSettingsRow acc r) (fun q hq => hrows q (List.mem_cons_of_mem r hq)) ?_
    intro a ha
    cases acc with
    | none =>
      simp only [laterSettingsRow] at ha
      cases ha
      exact hrows r (List.mem_cons_self r rows)
    | some b =>
      simp only [laterSettingsRow] at ha
      by_cases hb : b.id < r.id
      · rw [if_pos hb] at ha
        cases ha
        exact hrows r (List.mem_cons_self r rows)
      · rw [if_neg hb] at ha
        cases ha
        exact hacc a rfl

theorem latestSettingsRow_concat (rows : List SettingsRow) (nr : SettingsRow)
    (h : ∀ r ∈ rows, r.id < nr.id) :
    latestSettingsRow (rows ++ [nr]) = some nr := by
  unfold latestSettingsRow
  exact foldl_laterSettingsRow nr rows none h (fun a ha => by cases ha)

theorem WFSettings_save (st : SettingsStore) (s : GardenSettings)
    (h : WFSettings st) : WFSettings (saveSettings st s) := by
  intro r hr
  unfold saveSettings at hr ⊢
  simp only [List.mem_append, List.mem_singleton] at hr
  rcases hr with hr | rfl
  · have := h r hr
    dsimp only
    omega
  · simp only [settingsToRow]
    omega

/-! ## Claim theorems -/

/-- Claim C1 counterexample: copying the  2024 leap-day task to 2025 yields
the date 2025-03-01 — the year component is shifted by 1 but month/day
02/29 is not preserved, so the universal month/day-preservation statement
fails on Feb 29 sources. -/
theorem copySelectedTasks_feb29_counterexample :
    (copiedRows febStore copy2425).map TaskRow.date = ["2025-03-01"] ∧
    parseJsDate "2024-02-29" = some ⟨2024, 2, 29⟩ ∧
    (copiedRows febStore copy2425).map (fun r => parseJsDate r.date) = [some ⟨2025, 3, 1⟩] ∧
    (copiedRows febStore copy2425).map (fun r => parseJsDate r.date) ≠ [some ⟨2025, 2, 29⟩] := by
  refine ⟨by decide, by decide, by decide, by decide⟩

/-- Claim C1 (amended): for every source task whose stored date parses as a
calendar date, the date of the copied row is the ISO rendering of the parsed
date with the year component shifted by exactly `toYear - fromYear` and
month/day preserved, provided month/day exist in the destination year; a
Feb 29 source shifted to a non-leap destination year instead becomes Mar 1
of that year.  In particular the end-to-end scenario holds: the task with
date 01/15/2024 and year 2024 copied to 2025 with default options yields
exactly one new row with date 2025-01-15 (month/day 01/15, year 2025), a
fresh id 1 distinct from the source id 0, completed read back as false and
photos read back as the empty list. -/
theorem copySelectedTasks_date_shift_amended :
    (∀ (o : CopyYearOptions) (n : Nat) (t : TaskRow) (g : CivilDate),
        parseJsDate t.date = some g →
        1 ≤ g.month → g.month ≤ 12 → 1 ≤ g.day →
        g.day ≤ daysInMonth (g.year + (o.toYear - o.fromYear)) g.month →
        (copyTaskRow o n t).date =
          formatISO ⟨g.year + (o.toYear - o.fromYear), g.month, g.day⟩) ∧
    (∀ (o : CopyYearOptions) (n : Nat) (t : TaskRow) (y : Int),
        parseJsDate t.date = some ⟨y, 2, 29⟩ →
        isLeapYear (y + (o.toYear - o.fromYear)) = false →
        (copyTaskRow o n t).date = formatISO ⟨y + (o.toYear - o.fromYear), 3, 1⟩) ∧
    ((copySelectedTasks exampleStore copy2425).2 = 1 ∧
     (copiedRows exampleStore copy2425).map TaskRow.date = ["2025-01-15"] ∧
     (copiedRows exampleStore copy2425).map TaskRow.id = [1] ∧ (1 : Nat) ≠ 0 ∧
     (copiedRows exampleStore copy2425).map (fun r => (rowToTask r).completed) = [false] ∧
     (copiedRows exampleStore copy2425).map (fun r => (rowToTask r).photos) = [[]]) := by
  refine ⟨?_, ?_, by decide⟩
  · intro o n t g hp hm1 hm2 hd1 hd2
    show adjustTaskDate t.date (o.toYear - o.fromYear) = _
    unfold adjustTaskDate
    rw [hp]
    dsimp only
    rw [civilFromDays_daysFromCivil (g.year + (o.toYear - o.fromYear)) g.month g.day
      hm1 hm2 hd1 hd2]
  · intro o n t y hp hleap
    show adjustTaskDate t.date (o.toYear - o.fromYear) = _
    unfold adjustTaskDate
    rw [hp]
    dsimp only
    rw [daysFromCivil_feb29 _ hleap]
    rw [civilFromDays_daysFromCivil (y + (o.toYear - o.fromYear)) 3 1 (by norm_num)
      (by norm_num) (by norm_num) (by unfold daysInMonth; norm_num)]

/-- Witness for the amended claim C1: a May 10 task shifts to May 10 of the
destination year, and a Feb 29 task shifts to Mar 1 of the non-leap 2025. -/
theorem copySelectedTasks_date_shift_amended_witness :
    (copyTaskRow copy2425 7 (mkTaskRow 0 "2024-05-10" 2024 0 none)).date =
      formatISO ⟨2025, 5, 10⟩ ∧
    (copyTaskRow copy2425 8 (mkTaskRow 0 "2024-02-29" 2024 0 none)).date =
      formatISO ⟨2025, 3, 1⟩ := by
  constructor
  · exact copySelectedTasks_date_shift_amended.1 copy2425 7 _ ⟨2024, 5, 10⟩ (by decide)
      (by decide) (by decide) (by decide) (by decide)
  · exact copySelectedTasks_date_shift_amended.2.1 copy2425 8 _ 2024 (by decide) (by decide)

/-- Claim C2: for every crop and frost date, calculatePlantingDate returns
exactly the frost date minus `7 * weeksBeforeFrost` days (as a pure
function of its arguments), with correct month/year rollunder; in
particular Jan 10 2024 minus 8 weeks is Nov 15 2023. -/
theorem calculatePlantingDate_spec :
    (∀ (crop : Crop) (f : CivilDate),
        calculatePlantingDate crop f =
          civilFromDays (daysFromCivil f.year f.month f.day - crop.weeksBeforeFrost * 7)) ∧
    calculatePlantingDate ⟨0, "Broccoli", 8, 60⟩ ⟨2024, 1, 10⟩ = ⟨2023, 11, 15⟩ := by
  constructor
  · intro crop f
    unfold calculatePlantingDate
    rw [daysFromCivil_day_shift]
  · decide

/-- Claim C3 counterexample: deleting the task that owns photo p.jpg on a
file system where the release fails attempts the release and then fails,
so the cleanup failure does prevent the row deletion (the claim asserts
the row is removed even if a photo-release call fails). -/
theorem deleteTask_cleanup_failure_counterexample :
    deleteTask fsAllFail photoTaskStore 0 = (["p.jpg"], .error "photo delete failed") := rfl

/-- Claim C3 (amended): deleting a task with N stored photos attempts to
release each of the N photos; when every release succeeds the task row is
removed; when any release fails the error propagates to the caller and the
row deletion does NOT happen (the DELETE statement never runs). -/
theorem deleteTask_cleanup_contract (fsFail : String → Bool) (st : TaskStore)
    (id : Nat) (r : TaskRow)
    (hfind : st.rows.find? (fun q => q.id == id) = some r)
    (hne : (rowToTask r).photos ≠ []) :
    (deleteTask fsFail st id).1 = (rowToTask r).photos ∧
    ((rowToTask r).photos.any fsFail = true →
      (deleteTask fsFail st id).2 = .error "photo delete failed") ∧
    ((rowToTask r).photos.any fsFail = false →
      (deleteTask fsFail st id).2 =
        .ok { st with rows := st.rows.filter (fun q => q.id != id) }) := by
  obtain ⟨a, as, hp⟩ : ∃ a as, (rowToTask r).photos = a :: as := by
    cases hp : (rowToTask r).photos with
    | nil => exact absurd hp hne
    | cons a as => exact ⟨a, as, rfl⟩
  unfold deleteTask
  rw [hfind]
  dsimp only
  rw [hp]
  simp only [List.isEmpty_cons, Bool.false_eq_true, if_false]
  refine ⟨by trivial, fun hany => ?_, fun hany => ?_⟩
  · simp [cleanupTaskPhotos, hany]
  · simp [cleanupTaskPhotos, hany]

/-- Witness for the amended claim C3: on the one-photo fixture the failing
oracle yields the attempted release list and no deletion, the succeeding
oracle yields the store without the row. -/
theorem deleteTask_cleanup_contract_witness :
    (deleteTask fsAllFail photoTaskStore 0).1 = ["p.jpg"] ∧
    (deleteTask fsAllFail photoTaskStore 0).2 = .error "photo delete failed" ∧
    (deleteTask fsAllOk photoTaskStore 0).2 =
      .ok { photoTaskStore with
            rows := photoTaskStore.rows.filter (fun q => q.id != 0) } := by
  refine ⟨?_, ?_, ?_⟩
  · exact ((deleteTask_cleanup_contract fsAllFail photoTaskStore 0
      (mkTaskRow 0 "2024-05-01" 2024 0 (some ["p.jpg"])) (by decide) (by decide)).1).trans
      (by decide)
  · exact (deleteTask_cleanup_contract fsAllFail photoTaskStore 0
      (mkTaskRow 0 "2024-05-01" 2024 0 (some ["p.jpg"])) (by decide) (by decide)).2.1
      (by decide)
  · exact (deleteTask_cleanup_contract fsAllOk photoTaskStore 0
      (mkTaskRow 0 "2024-05-01" 2024 0 (some ["p.jpg"])) (by decide) (by decide)).2.2
      (by decide)

/-- Claim C4: a copied row stores the source completion value verbatim
exactly when resetCompletion is false; when resetCompletion is true or
unspecified it stores 0, read back as completed = false, regardless of the
source value. -/
theorem copyTaskRow_resetCompletion (o : CopyYearOptions) (n : Nat) (t : TaskRow) :
    (copyTaskRow o n t).completed =
      (if o.resetCompletion = some false then t.completed else 0) ∧
    (o.resetCompletion ≠ some false →
      (copyTaskRow o n t).completed = 0 ∧
      (rowToTask (copyTaskRow o n t)).completed = false) := by
  refine ⟨rfl, fun h => ?_⟩
  constructor
  · simp [copyTaskRow, h]
  · simp [rowToTask, copyTaskRow, h]

/-- Witness for claim C4: with default options a completed source row is
copied with completed stored as 0 and read back false. -/
theorem copyTaskRow_resetCompletion_witness :
    (copyTaskRow copy2425 3 (mkTaskRow 0 "2024-05-01" 2024 1 none)).completed = 0 ∧
    (rowToTask (copyTaskRow copy2425 3 (mkTaskRow 0 "2024-05-01" 2024 1 none))).completed
      = false :=
  (copyTaskRow_resetCompletion copy2425 3 (mkTaskRow 0 "2024-05-01" 2024 1 none)).2
    (by decide)

/-- Claim C5: every row inserted by the copy has NULL photos (read back as
the empty list) and archived stored as 0 (read back as false), for every
store, every option set and every source row. -/
theorem copiedRows_photos_archived_reset (st : TaskStore) (o : CopyYearOptions)
    (r : TaskRow) (h : r ∈ copiedRows st o) :
    r.photos = none ∧ r.archived = some 0 ∧
    (rowToTask r).photos = [] ∧ (rowToTask r).archived = false := by
  obtain ⟨i, q, _, _, rfl⟩ := mem_copiedRows h
  exact ⟨rfl, rfl, rfl, rfl⟩

/-- Witness for claim C5, on the row produced by the end-to-end copy
fixture. -/
theorem copiedRows_photos_archived_reset_witness :
    (mkTaskRow 1 "2025-01-15" 2025 0 none).photos = none ∧
    (mkTaskRow 1 "2025-01-15" 2025 0 none).archived = some 0 ∧
    (rowToTask (mkTaskRow 1 "2025-01-15" 2025 0 none)).photos = [] ∧
    (rowToTask (mkTaskRow 1 "2025-01-15" 2025 0 none)).archived = false :=
  copiedRows_photos_archived_reset exampleStore copy2425 _ (by decide)

/-- Claim C6: saving settings then reading returns exactly the saved
values, and after two saves the reader returns the second save only — the
save always appends a fresh row and the reader takes the row with the
greatest id. -/
theorem settings_save_get_latest_wins (st : SettingsStore)
    (s1 s2 : GardenSettings) (nowYear : Int) (hwf : WFSettings st) :
    (getSettings nowYear (saveSettings st s1)).1 = s1 ∧
    (getSettings nowYear (saveSettings (saveSettings st s1) s2)).1 = s2 := by
  have key : ∀ (st2 : SettingsStore) (s : GardenSettings), WFSettings st2 →
      (getSettings nowYear (saveSettings st2 s)).1 = s := by
    intro st2 s h
    have hconcat := latestSettingsRow_concat st2.rows (settingsToRow st2.nextSeq s)
      (fun r hr => by simpa [settingsToRow] using h r hr)
    unfold getSettings saveSettings
    dsimp only
    rw [hconcat]
    exact rowToSettings_settingsToRow _ _
  exact ⟨key st s1 hwf, key _ s2 (WFSettings_save st s1 hwf)⟩

/-- Witness for claim C6 on the empty settings store. -/
theorem settings_save_get_latest_wins_witness :
    (getSettings 2024 (saveSettings ⟨[], 1⟩ (defaultSettings 2024))).1 =
      defaultSettings 2024 ∧
    (getSettings 2024 (saveSettings (saveSettings ⟨[], 1⟩ (defaultSettings 2024))
        ⟨"11-01", "04-15", 2025, false, true⟩)).1 =
      ⟨"11-01", "04-15", 2025, false, true⟩ :=
  settings_save_get_latest_wins ⟨[], 1⟩ (defaultSettings 2024)
    ⟨"11-01", "04-15", 2025, false, true⟩ 2024
    (fun r hr => absurd hr (List.not_mem_nil r))

/-- Claim C7 counterexample: the embedded seed catalog has 35 entries, not
34, and seeding an empty store then reading back returns 35 crops. -/
theorem seedCatalog_length_counterexample :
    (parseCropsCsv DEFAULT_CROPS_CSV).length = 35 ∧
    (getCrops (initCropDatabase ⟨[], 0⟩)).length = 35 ∧
    ¬ (getCrops (initCropDatabase ⟨[], 0⟩)).length = 34 := by
  refine ⟨by decide, by decide, by decide⟩

/-- Claim C7 (amended): the embedded seed catalog has 35 entries; after
seeding an empty crop table, getCrops returns 35 crops sorted by name
ascending (binary collation), the first being Ageratum. -/
theorem seedCatalog_seed_sorted_amended :
    (parseCropsCsv DEFAULT_CROPS_CSV).length = 35 ∧
    (getCrops (initCropDatabase ⟨[], 0⟩)).length = 35 ∧
    ((getCrops (initCropDatabase ⟨[], 0⟩)).map Crop.name).head? = some "Ageratum" ∧
    isSortedBy (fun a b => strLe a.name b.name)
      (getCrops (initCropDatabase ⟨[], 0⟩)) = true := by
  refine ⟨by decide, by decide, by decide, by decide⟩

/-- Claim C8: for ids absent from the stores, task lookup is a hard
failure (an error, never a record) while crop lookup returns the absence
value none and never throws — an asymmetry by design. -/
theorem notFound_asymmetry (tst : TaskStore) (cst : CropStore) (idt idc : Nat)
    (ht : ∀ r ∈ tst.rows, r.id ≠ idt) (hc : ∀ c ∈ cst.rows, c.id ≠ idc) :
    getTaskById tst idt = .error "Task not found" ∧ getCropById cst idc = none := by
  constructor
  · unfold getTaskById
    have hfind : tst.rows.find? (fun r => r.id == idt) = none := by
      rw [List.find?_eq_none]
      intro a ha
      simpa using ht a ha
    rw [hfind]
  · unfold getCropById
    rw [List.find?_eq_none]
    intro a ha
    simpa using hc a ha

/-- Witness for claim C8 on empty stores. -/
theorem notFound_asymmetry_witness :
    getTaskById ⟨[], 0⟩ 5 = .error "Task not found" ∧ getCropById ⟨[], 0⟩ 5 = none :=
  notFound_asymmetry ⟨[], 0⟩ ⟨[], 0⟩ 5 5
    (fun r hr => absurd hr (List.not_mem_nil r))
    (fun c hc => absurd hc (List.not_mem_nil c))

/-- Claim C9: the copy SELECT applies no archived-visibility filter: an
archived source-year row matching the category/template/type filters is
still selected (so at least one copy is made and every inserted copy has
archived stored as 0) even though the row is invisible to getTasks. -/
theorem copySelectedTasks_ignores_archived_filter (st : TaskStore)
    (o : CopyYearOptions) (r : TaskRow) (hr : r ∈ st.rows)
    (hm : matchesCopyFilter o r = true) (ha : r.archived = some 1) :
    r ∈ copySourceRows st o ∧
    1 ≤ (copySelectedTasks st o).2 ∧
    rowToTask r ∉ getTasks st o.fromYear ∧
    ∀ nr ∈ copiedRows st o, nr.archived = some 0 := by
  have hsrc := mem_copySourceRows_of hr hm
  refine ⟨hsrc, ?_, ?_, ?_⟩
  · unfold copySelectedTasks
    dsimp only
    unfold copiedRows
    rw [List.length_map, length_enumFromN]
    have hne : copySourceRows st o ≠ [] := List.ne_nil_of_mem hsrc
    have hpos := List.length_pos.mpr hne
    omega
  · intro hmem
    have h1 := getTasks_archived_false hmem
    have h2 : (rowToTask r).archived = true := by simp [rowToTask, ha]
    rw [h1] at h2
    simp at h2
  · intro nr hnr
    obtain ⟨i, q, _, _, rfl⟩ := mem_copiedRows hnr
    rfl

/-- Witness for claim C9 on a store holding one archived 2024 task. -/
theorem copySelectedTasks_ignores_archived_filter_witness :
    ({ mkTaskRow 0 "2024-05-01" 2024 0 none with archived := some 1 } : TaskRow) ∈
      copySourceRows archivedStore copy2425 ∧
    1 ≤ (copySelectedTasks archivedStore copy2425).2 := by
  have h := copySelectedTasks_ignores_archived_filter archivedStore copy2425
    { mkTaskRow 0 "2024-05-01" 2024 0 none with archived := some 1 }
    (by decide) (by decide) rfl
  exact ⟨h.1, h.2.1⟩

/-- Claim C10: an update whose patch has every field undefined yields an
empty SET clause, so the UPDATE statement is malformed and the call fails
with a store error for every id, instead of returning the unchanged task. -/
theorem updateTask_empty_patch_fails (st : TaskStore) (id : Nat) :
    taskAssignments emptyUpdateInput = [] ∧
    updateTask st id emptyUpdateInput = .error "SQL syntax error near WHERE" :=
  ⟨rfl, rfl⟩
